import Mathlib

/-
  Verification of the AlternateHistories session core.

  Shallow embedding of:
    - src/src/scenarios.py    (HistoricalScenario, AVAILABLE_SCENARIOS)
    - src/src/ai_client.py    (AIClient.generate_choices, AIClient.generate_consequence)
    - src/src/game_engine.py  (GameState, GameEngine.start_scenario, is_active,
                               get_available_choices, make_choice,
                               _parse_ai_choices, _get_fallback_choices)

  Modelling conventions:
    - Choice option records are embedded at the type the source annotates
      (List[Dict[str, str]] with keys id / description / potential_impact),
      as the structure `Choice`.
    - The external text service is nondeterministic, so each engine operation
      takes the round-trip outcome as an explicit argument:
        * `ChoiceTransport` is the outcome of the choice-generation round trip;
          a raw reply text is represented by the outcome of running
          json.loads on it, classified by the shape the engine inspects
          (`TextDecode`): unparseable text, a parsed non-object (whose .get
          raises AttributeError), an object without key 'choices', or an
          object whose 'choices' entry is a well-typed option list.
        * `ConsequenceTransport` is the outcome of the consequence round trip:
          the API call raising, the reply text failing json.loads, or a
          parsed record (`ConsequenceRecord`, with the optional fields
          'alterations' and 'is_ending' that the engine reads via .get).
    - Python exceptions raised by the client are `Except PyException`; the
      engine's bare `except` blocks become matches on the error case.
    - `get_available_choices_i` / `make_choice_i` additionally record whether
      the corresponding service-request line was reached (the `requested`
      flags), which the code paths determine; the un-instrumented functions
      are their projections.
-/

namespace AlternateHistories

/-- Field-for-field embedding of the dataclass `HistoricalScenario`
(src/src/scenarios.py lines 8-15). -/
structure HistoricalScenario where
  name : String
  description : String
  time_period : String
  initial_situation : String
deriving DecidableEq, Repr

/-- Embedding of `AVAILABLE_SCENARIOS["library_alexandria"]`. -/
def scenario_library_alexandria : HistoricalScenario :=
  { name := "The Library of Alexandria"
    description := "What if the great Library of Alexandria was never destroyed?"
    time_period := "48 BCE - 641 CE"
    initial_situation :=
      "You are the head librarian of the Great Library of Alexandria in 48 BCE. "
      ++ "Julius Caesar's forces have accidentally started a fire that threatens to spread "
      ++ "to the library district. You must decide how to protect the world's greatest "
      ++ "collection of knowledge while the city burns around you." }

/-- Embedding of `AVAILABLE_SCENARIOS["mongol_europe"]`. -/
def scenario_mongol_europe : HistoricalScenario :=
  { name := "Mongol Invasion of Europe"
    description := "What if the Mongols had successfully conquered all of Europe?"
    time_period := "1241 CE"
    initial_situation :=
      "You are Ögedei Khan, son of Genghis Khan, and your Mongol forces have just "
      ++ "crushed European armies at Mohi and Legnica. All of Europe lies open before you, "
      ++ "but news arrives that forces you to make a crucial decision about the future "
      ++ "of your western campaign." }

/-- Embedding of `AVAILABLE_SCENARIOS["columbus_pacific"]`. -/
def scenario_columbus_pacific : HistoricalScenario :=
  { name := "Columbus Sails West to Asia"
    description := "What if Columbus had actually reached Asia by sailing west?"
    time_period := "1492 CE"
    initial_situation :=
      "You are Christopher Columbus, and after months at sea, you've finally reached "
      ++ "what you believe to be the Indies. However, the lands and peoples you encounter "
      ++ "are unlike anything described by Marco Polo. You must decide how to proceed "
      ++ "with your mission while managing increasingly restless crew members." }

/-- Embedding of `AVAILABLE_SCENARIOS["black_death"]`. -/
def scenario_black_death : HistoricalScenario :=
  { name := "The Black Death Prevention"
    description := "What if medieval physicians had understood disease transmission?"
    time_period := "1347 CE"
    initial_situation :=
      "You are a physician in the port city of Genoa when ships arrive carrying "
      ++ "a mysterious plague from the East. Unlike your contemporaries, you suspect "
      ++ "this disease spreads through contact rather than 'bad air.' You must convince "
      ++ "the city authorities to take unprecedented quarantine measures." }

/-- Embedding of `AVAILABLE_SCENARIOS["archduke_survives"]`. -/
def scenario_archduke_survives : HistoricalScenario :=
  { name := "Archduke Franz Ferdinand Lives"
    description := "What if the assassination of Archduke Franz Ferdinand had failed?"
    time_period := "June 28, 1914"
    initial_situation :=
      "You are Archduke Franz Ferdinand of Austria-Hungary, and you've just survived "
      ++ "an assassination attempt in Sarajevo. Your driver took a wrong turn, but your "
      ++ "quick thinking saved your life when Gavrilo Princip's shot missed. As tensions "
      ++ "rise across Europe, you must decide how to respond to this act of Serbian nationalism "
      ++ "while your empire teeters on the brink of war." }

/-- Embedding of `AVAILABLE_SCENARIOS["lusitania_warning"]`. -/
def scenario_lusitania_warning : HistoricalScenario :=
  { name := "The Lusitania's Final Voyage"
    description := "What if the Lusitania had heeded Germany's submarine warnings?"
    time_period := "May 7, 1915"
    initial_situation :=
      "You are Captain William Turner of the RMS Lusitania. German U-boats have been "
      ++ "attacking ships in these waters, and you've received warnings about submarine "
      ++ "activity. Your ship carries 1,962 passengers and crew, including many Americans. "
      ++ "You must decide whether to alter course, reduce speed for safety, or maintain "
      ++ "schedule despite the submarine threat off the Irish coast." }

/-- Embedding of `AVAILABLE_SCENARIOS["zimmermann_intercepted"]`. -/
def scenario_zimmermann_intercepted : HistoricalScenario :=
  { name := "The Zimmermann Telegram Plot"
    description := "What if Germany's secret alliance offer to Mexico had succeeded?"
    time_period := "January 1917"
    initial_situation :=
      "You are Foreign Secretary Arthur Zimmermann of Germany. Your secret telegram "
      ++ "proposing a German-Mexican alliance against the United States has been sent, "
      ++ "but you're unaware that British intelligence has intercepted it. Mexico shows "
      ++ "interest in your offer of reclaiming Texas, New Mexico, and Arizona. You must "
      ++ "decide how to proceed with this alliance while managing the risk of bringing "
      ++ "America into the European war." }

/-- Embedding of `AVAILABLE_SCENARIOS["hitler_art_school"]`. -/
def scenario_hitler_art_school : HistoricalScenario :=
  { name := "The Rejected Artist's Path"
    description := "What if Adolf Hitler had been accepted into art school?"
    time_period := "September 1907"
    initial_situation :=
      "You are the admissions director of the Vienna Academy of Fine Arts. A passionate "
      ++ "young man named Adolf Hitler from Austria has applied for the second time after "
      ++ "being rejected last year. His artwork shows some talent but lacks technical skill. "
      ++ "However, his determination is evident. You must decide whether to give him another "
      ++ "chance, knowing that this decision could alter the path of a future political figure." }

/-- Embedding of `AVAILABLE_SCENARIOS["pearl_harbor_warning"]`. -/
def scenario_pearl_harbor_warning : HistoricalScenario :=
  { name := "The Pearl Harbor Intelligence"
    description := "What if the US had acted on early warnings about Pearl Harbor?"
    time_period := "December 6, 1941"
    initial_situation :=
      "You are Admiral Husband Kimmel, commander of the US Pacific Fleet at Pearl Harbor. "
      ++ "Intelligence reports suggest increased Japanese naval activity, and you've received "
      ++ "vague warnings about possible attacks. However, Washington believes any Japanese "
      ++ "action will target the Philippines or Southeast Asia. With limited resources and "
      ++ "conflicting intelligence, you must decide how to position your fleet and defenses "
      ++ "for the next 24 hours." }

/-- Embedding of `AVAILABLE_SCENARIOS["operation_barbarossa"]`. -/
def scenario_operation_barbarossa : HistoricalScenario :=
  { name := "Stalin's Dilemma"
    description := "What if Stalin had believed the warnings about German invasion?"
    time_period := "June 20, 1941"
    initial_situation :=
      "You are Joseph Stalin, and multiple intelligence sources are warning that Germany "
      ++ "is about to break the Molotov-Ribbentrop Pact and invade the Soviet Union. Your "
      ++ "generals urge mobilization, but you fear that aggressive preparations might provoke "
      ++ "Hitler into an attack he's not actually planning. German troops are massing on "
      ++ "your border, but diplomatic channels remain open. You must decide whether to fully "
      ++ "mobilize the Red Army or maintain the non-aggression pact." }

/-- Embedding of `AVAILABLE_SCENARIOS["d_day_weather"]`. -/
def scenario_d_day_weather : HistoricalScenario :=
  { name := "D-Day: The Weather Decision"
    description := "What if Operation Overlord had been postponed due to weather?"
    time_period := "June 4, 1944"
    initial_situation :=
      "You are General Dwight D. Eisenhower, Supreme Allied Commander. Operation Overlord, "
      ++ "the invasion of Normandy, is scheduled for tomorrow, but meteorologists predict "
      ++ "terrible weather - high winds and rough seas that could doom the operation. "
      ++ "Postponing means losing the element of surprise and risking German reinforcements. "
      ++ "The tides won't be favorable again for weeks. You must decide whether to proceed "
      ++ "with the invasion despite the weather or postpone and risk the consequences." }

/-- The scenario catalog `AVAILABLE_SCENARIOS` (src/src/scenarios.py lines
18-161), as an association list preserving the dict's insertion order. -/
def AVAILABLE_SCENARIOS : List (String × HistoricalScenario) :=
  [ ("library_alexandria", scenario_library_alexandria)
  , ("mongol_europe", scenario_mongol_europe)
  , ("columbus_pacific", scenario_columbus_pacific)
  , ("black_death", scenario_black_death)
  , ("archduke_survives", scenario_archduke_survives)
  , ("lusitania_warning", scenario_lusitania_warning)
  , ("zimmermann_intercepted", scenario_zimmermann_intercepted)
  , ("hitler_art_school", scenario_hitler_art_school)
  , ("pearl_harbor_warning", scenario_pearl_harbor_warning)
  , ("operation_barbarossa", scenario_operation_barbarossa)
  , ("d_day_weather", scenario_d_day_weather) ]

/-- `AVAILABLE_SCENARIOS.get(name)`: Python dict lookup, `None` when the key
is absent. -/
def scenarios_get (k : String) : Option HistoricalScenario :=
  (AVAILABLE_SCENARIOS.find? (fun p => p.1 == k)).map (fun p => p.2)

/-- A choice option record at the source's annotated type
`Dict[str, str]` with the keys the engine produces and reads
(`id`, `description`, `potential_impact`). -/
structure Choice where
  id : String
  description : String
  potential_impact : String
deriving DecidableEq, Repr

/-- Embedding of `GameState` (src/src/game_engine.py lines 12-20). -/
structure GameState where
  scenario : HistoricalScenario
  current_situation : String
  choices_made : List Choice
  timeline_alterations : List String
  is_complete : Bool
deriving DecidableEq, Repr

/-- `GameState.__init__(scenario)`. -/
def GameState.init (scenario : HistoricalScenario) : GameState :=
  { scenario := scenario
    current_situation := scenario.initial_situation
    choices_made := []
    timeline_alterations := []
    is_complete := false }

/-- A raised Python exception: both client failure paths raise the one
builtin `Exception` type, carrying only a message string
(src/src/ai_client.py lines 30 and 48). -/
structure PyException where
  msg : String
deriving DecidableEq, Repr

/-- The record json.loads yields from a well-formed consequence reply, at the
shape `make_choice` reads: key `new_situation` (read by subscript), and the
optional keys `alterations` and `is_ending` (read via `.get` with defaults
`[]` / `False`, src/src/game_engine.py lines 112-116). -/
structure ConsequenceRecord where
  new_situation : String
  alterations : Option (List String)
  is_ending : Option Bool
deriving DecidableEq, Repr

/-- A raw choice-generation reply text, represented by the outcome of
`json.loads` on it as `_parse_ai_choices` inspects it
(src/src/game_engine.py lines 175-181):
`parseError` — json.loads raises; `notObject` — json.loads yields a
non-dict, so `data.get` raises AttributeError; `objectNoChoices` — a dict
without key `choices`; `objectChoices cs` — a dict whose `choices` entry is
a well-typed option list. -/
inductive TextDecode where
  | parseError
  | notObject
  | objectNoChoices
  | objectChoices (cs : List Choice)
deriving DecidableEq, Repr

/-- Outcome of the choice-generation round trip inside
`AIClient.generate_choices` (src/src/ai_client.py lines 16-30):
`fail msg` — the API call raises an exception rendering as `msg`;
`reply text` — the call returns content. -/
inductive ChoiceTransport where
  | fail (msg : String)
  | reply (text : TextDecode)
deriving DecidableEq, Repr

/-- Outcome of the consequence round trip inside
`AIClient.generate_consequence` (src/src/ai_client.py lines 32-48):
`fail msg` — the API call raises; `replyUnparseable msg` — content was
returned but `json.loads` raises an error rendering as `msg`;
`reply c` — content was returned and parsed to the record `c`. -/
inductive ConsequenceTransport where
  | fail (msg : String)
  | replyUnparseable (msg : String)
  | reply (c : ConsequenceRecord)
deriving DecidableEq, Repr

/-- `AIClient.generate_choices`: returns the raw reply, and wraps any
exception from the call into the single generic
`Exception(f"AI choice generation failed: {e}")`. -/
def generate_choices : ChoiceTransport → Except PyException TextDecode
  | ChoiceTransport.fail m => Except.error ⟨"AI choice generation failed: " ++ m⟩
  | ChoiceTransport.reply t => Except.ok t

/-- `AIClient.generate_consequence`: `json.loads` of the reply content; the
single `except Exception` clause wraps BOTH a failing API call and a
failing `json.loads` into the same generic
`Exception(f"AI consequence generation failed: {e}")`. -/
def generate_consequence : ConsequenceTransport → Except PyException ConsequenceRecord
  | ConsequenceTransport.fail m =>
      Except.error ⟨"AI consequence generation failed: " ++ m⟩
  | ConsequenceTransport.replyUnparseable m =>
      Except.error ⟨"AI consequence generation failed: " ++ m⟩
  | ConsequenceTransport.reply c => Except.ok c

/-- `GameEngine._get_fallback_choices` (src/src/game_engine.py lines
183-201), verbatim. -/
def get_fallback_choices : List Choice :=
  [ { id := "diplomatic"
      description := "Pursue diplomatic negotiations"
      potential_impact := "May lead to peaceful resolution but could show weakness" }
  , { id := "aggressive"
      description := "Take decisive military action"
      potential_impact := "Quick results but may escalate conflict" }
  , { id := "wait"
      description := "Wait and gather more information"
      potential_impact := "Safer approach but may miss opportunities" } ]

/-- `GameEngine._parse_ai_choices` (src/src/game_engine.py lines 175-181):
the bare `except` turns both a json.loads failure and the AttributeError
from `.get` on a non-dict into the fallback list; on a dict it returns
`data.get('choices', [])`, i.e. the empty list when the key is absent. -/
def parse_ai_choices : TextDecode → List Choice
  | TextDecode.parseError => get_fallback_choices
  | TextDecode.notObject => get_fallback_choices
  | TextDecode.objectNoChoices => []
  | TextDecode.objectChoices cs => cs

/-- Result of `get_available_choices`, instrumented with whether the
`self.ai_client.generate_choices(prompt)` line was reached. -/
structure ChoicesResult where
  choices : List Choice
  requested : Bool
deriving DecidableEq, Repr

/-- `GameEngine.get_available_choices` (src/src/game_engine.py lines 61-83):
empty without a service call when there is no state or the state is
complete; otherwise one `generate_choices` round trip, with the `except`
clause mapping any raised exception to the fallback list. -/
def get_available_choices_i (cs : Option GameState) (tr : ChoiceTransport) : ChoicesResult :=
  match cs with
  | none => ⟨[], false⟩
  | some s =>
      if s.is_complete then ⟨[], false⟩
      else
        match generate_choices tr with
        | Except.error _ => ⟨get_fallback_choices, true⟩
        | Except.ok t => ⟨parse_ai_choices t, true⟩

/-- The choice list `get_available_choices` returns to its caller. -/
def get_available_choices (cs : Option GameState) (tr : ChoiceTransport) : List Choice :=
  (get_available_choices_i cs tr).choices

/-- Result of `make_choice`, instrumented with whether the choice-generation
and consequence-generation request lines were reached. -/
structure MCResult where
  state : Option GameState
  ok : Bool
  choiceRequested : Bool
  consequenceRequested : Bool
deriving DecidableEq, Repr

/-- The fallback sentence `make_choice` assigns on a client failure
(src/src/game_engine.py line 123). -/
def fallback_situation (chosen_option : Choice) : String :=
  "Your choice to '" ++ chosen_option.description
    ++ "' has created ripple effects through history..."

/-- `GameEngine.make_choice` (src/src/game_engine.py lines 85-125): recompute
the options (a fresh service round trip), find the first with the matching
`id`; on no match return False with nothing mutated; otherwise append the
chosen option to history and run `generate_consequence`, whose success
assigns the new situation, extends the timeline log, and may set
`is_complete`, and whose raised exception is absorbed into the fallback
situation sentence; both of the latter paths return True. -/
def make_choice_i (cs : Option GameState) (choice_id : String)
    (tr : ChoiceTransport) (co : ConsequenceTransport) : MCResult :=
  match cs with
  | none => ⟨none, false, false, false⟩
  | some s =>
      let gc := get_available_choices_i (some s) tr
      match gc.choices.find? (fun c => c.id == choice_id) with
      | none => ⟨some s, false, gc.requested, false⟩
      | some chosen_option =>
          let s1 : GameState := { s with choices_made := s.choices_made ++ [chosen_option] }
          match generate_consequence co with
          | Except.ok consequence =>
              ⟨some { s1 with
                  current_situation := consequence.new_situation
                  timeline_alterations :=
                    s1.timeline_alterations ++ consequence.alterations.getD []
                  is_complete :=
                    if consequence.is_ending.getD false then true else s1.is_complete }
                , true, gc.requested, true⟩
          | Except.error _ =>
              ⟨some { s1 with current_situation := fallback_situation chosen_option }
                , true, gc.requested, true⟩

/-- The engine-level session fields `current_state` and `_active`
(src/src/game_engine.py lines 25-28). -/
structure EngineState where
  current_state : Option GameState
  active : Bool
deriving DecidableEq, Repr

/-- `GameEngine.start_scenario` (src/src/game_engine.py lines 35-43). -/
def start_scenario (e : EngineState) (scenario_name : String) : EngineState × Bool :=
  match scenarios_get scenario_name with
  | none => (e, false)
  | some scenario => (⟨some (GameState.init scenario), true⟩, true)

/-- `GameEngine.is_active` (src/src/game_engine.py lines 45-47). -/
def is_active (e : EngineState) : Bool :=
  e.active &&
    (match e.current_state with
     | some s => !s.is_complete
     | none => false)

/-! ## Claim theorems -/

/-- C9: for every identifier present in the scenario catalog, `scenarios_get`
returns the scenario definition stored under that identifier (so its
identifier matches the key used to look it up); for every identifier not
in the catalog it returns the not-found signal `none`, and these are the
only two outcomes. -/
theorem scenarios_get_matches_key (k : String) :
    (∀ s, scenarios_get k = some s → (k, s) ∈ AVAILABLE_SCENARIOS)
    ∧ (scenarios_get k = none ↔ ∀ s, (k, s) ∉ AVAILABLE_SCENARIOS) := by
  constructor
  · intro s hs
    unfold scenarios_get at hs
    rcases hfind : AVAILABLE_SCENARIOS.find? (fun p => p.1 == k) with _ | p
    · rw [hfind] at hs
      simp at hs
    · rw [hfind] at hs
      simp at hs
      have hmem := List.mem_of_find?_eq_some hfind
      have hk : p.1 = k := by
        have hkey := List.find?_some hfind
        simpa using hkey
      have hp : p = (k, s) := by
        cases p with
        | mk a b => simp_all
      rw [hp] at hmem
      exact hmem
  · constructor
    · intro hnone s hmem
      unfold scenarios_get at hnone
      rcases hfind : AVAILABLE_SCENARIOS.find? (fun p => p.1 == k) with _ | p
      · rw [List.find?_eq_none] at hfind
        have := hfind (k, s) hmem
        simp at this
      · rw [hfind] at hnone
        simp at hnone
    · intro hall
      unfold scenarios_get
      rcases hfind : AVAILABLE_SCENARIOS.find? (fun p => p.1 == k) with _ | p
      · simp [hfind]
      · have hmem := List.mem_of_find?_eq_some hfind
        have hk : p.1 = k := by
          have hkey := List.find?_some hfind
          simpa using hkey
        exfalso
        apply hall p.2
        have hp : p = (k, p.2) := by
          cases p
          simp_all
        rw [hp] at hmem
        exact hmem

/-- Witness for C9 at the concrete identifier "library_alexandria". -/
theorem scenarios_get_matches_key_witness :
    ("library_alexandria", scenario_library_alexandria) ∈ AVAILABLE_SCENARIOS :=
  (scenarios_get_matches_key "library_alexandria").1 scenario_library_alexandria rfl

/-- C1 counterexample: on an Active session, a service reply that parses to a
JSON object WITHOUT the key `choices` cannot be interpreted as a structured
list of options under that key, yet `get_available_choices` returns the
empty list — not the three-element fallback set — because
`data.get('choices', [])` silently defaults to the empty list. -/
theorem available_choices_missing_key_empty :
    (GameState.init scenario_library_alexandria).is_complete = false
    ∧ get_available_choices (some (GameState.init scenario_library_alexandria))
        (ChoiceTransport.reply TextDecode.objectNoChoices) = []
    ∧ get_available_choices (some (GameState.init scenario_library_alexandria))
        (ChoiceTransport.reply TextDecode.objectNoChoices) ≠ get_fallback_choices := by
  refine ⟨rfl, rfl, ?_⟩
  intro h
  simp [get_available_choices, get_available_choices_i, GameState.init,
    generate_choices, parse_ai_choices, get_fallback_choices] at h

/-- C1 (amended): on an Active session, if the choice-generation call raises
(any exception, including ServiceError) or the reply text fails to parse as
JSON or parses to a non-object, then `get_available_choices` returns exactly
the fixed three-element fallback list with ids `diplomatic`, `aggressive`,
`wait`, and no error propagates; but a reply parsing to an object without
the key `choices` yields the empty list instead. -/
theorem available_choices_fallback_amended (s : GameState) (tr : ChoiceTransport)
    (hactive : s.is_complete = false) :
    (((∃ m, tr = ChoiceTransport.fail m)
        ∨ tr = ChoiceTransport.reply TextDecode.parseError
        ∨ tr = ChoiceTransport.reply TextDecode.notObject) →
      get_available_choices (some s) tr = get_fallback_choices)
    ∧ (tr = ChoiceTransport.reply TextDecode.objectNoChoices →
      get_available_choices (some s) tr = [])
    ∧ get_fallback_choices.map Choice.id = ["diplomatic", "aggressive", "wait"] := by
  refine ⟨?_, ?_, rfl⟩
  · rintro (⟨m, rfl⟩ | rfl | rfl) <;>
      simp [get_available_choices, get_available_choices_i, hactive,
        generate_choices, parse_ai_choices]
  · rintro rfl
    simp [get_available_choices, get_available_choices_i, hactive,
      generate_choices, parse_ai_choices]

/-- Witness for C1 (amended) at a concrete Active session and a concrete
failing transport. -/
theorem available_choices_fallback_amended_witness :
    get_available_choices (some (GameState.init scenario_library_alexandria))
      (ChoiceTransport.fail "boom") = get_fallback_choices :=
  (available_choices_fallback_amended (GameState.init scenario_library_alexandria)
    (ChoiceTransport.fail "boom") rfl).1 (Or.inl ⟨"boom", rfl⟩)

/-- C4 counterexample: on an Active (freshly initialized, not complete)
session, a service reply that parses to `{"choices": []}` makes
`get_available_choices` return the empty sequence, so the empty result does
NOT imply the session is Complete or Uninitialized. -/
theorem available_choices_empty_on_active :
    (GameState.init scenario_mongol_europe).is_complete = false
    ∧ get_available_choices (some (GameState.init scenario_mongol_europe))
        (ChoiceTransport.reply (TextDecode.objectChoices [])) = [] := by
  exact ⟨rfl, rfl⟩

/-- C4 (amended): on a Complete or Uninitialized session,
`get_available_choices` returns the empty sequence without contacting the
service; on an Active session the result is empty exactly when the reply
parses to an object whose `choices` entry is absent or is the empty list —
otherwise (service error, unparseable or non-object reply, or a non-empty
option list) it is non-empty. -/
theorem available_choices_empty_amended (cs : Option GameState) (tr : ChoiceTransport) :
    (cs = none → get_available_choices_i cs tr = ⟨[], false⟩)
    ∧ (∀ s, cs = some s → s.is_complete = true →
        get_available_choices_i cs tr = ⟨[], false⟩)
    ∧ (∀ s, cs = some s → s.is_complete = false →
        (get_available_choices cs tr = [] ↔
          tr = ChoiceTransport.reply TextDecode.objectNoChoices
          ∨ tr = ChoiceTransport.reply (TextDecode.objectChoices []))) := by
  refine ⟨?_, ?_, ?_⟩
  · rintro rfl
    rfl
  · rintro s rfl hc
    simp [get_available_choices_i, hc]
  · rintro s rfl hc
    rcases tr with m | t
    · simp [get_available_choices, get_available_choices_i, hc,
        generate_choices, get_fallback_choices]
    · rcases t with _ | _ | _ | cs' <;>
        simp [get_available_choices, get_available_choices_i, hc,
          generate_choices, parse_ai_choices, get_fallback_choices]

/-- Witness for C4 (amended): an Uninitialized session yields the empty list
with no service request. -/
theorem available_choices_empty_amended_witness :
    get_available_choices_i none (ChoiceTransport.fail "down") = ⟨[], false⟩ :=
  (available_choices_empty_amended none (ChoiceTransport.fail "down")).1 rfl

/-- C7: `start_scenario` with an identifier not in the catalog returns false
and leaves the engine state (hence any existing session) untouched; with any
catalog identifier it returns true and installs an Active session whose
situation is that scenario's initial situation, with empty choice history,
empty timeline-alteration log, and completion flag false. -/
theorem start_scenario_spec (e : EngineState) (scenario_name : String) :
    (scenarios_get scenario_name = none →
      start_scenario e scenario_name = (e, false))
    ∧ (∀ sc, scenarios_get scenario_name = some sc →
        start_scenario e scenario_name = (⟨some (GameState.init sc), true⟩, true)
        ∧ is_active ⟨some (GameState.init sc), true⟩ = true
        ∧ (GameState.init sc).current_situation = sc.initial_situation
        ∧ (GameState.init sc).choices_made = []
        ∧ (GameState.init sc).timeline_alterations = []
        ∧ (GameState.init sc).is_complete = false) := by
  constructor
  · intro hnone
    simp [start_scenario, hnone]
  · intro sc hsc
    refine ⟨by simp [start_scenario, hsc], rfl, rfl, rfl, rfl, rfl⟩

/-- Witness for C7 at the concrete identifier "mongol_europe" from a fresh
engine. -/
theorem start_scenario_spec_witness :
    start_scenario ⟨none, false⟩ "mongol_europe"
      = (⟨some (GameState.init scenario_mongol_europe), true⟩, true) :=
  ((start_scenario_spec ⟨none, false⟩ "mongol_europe").2
    scenario_mongol_europe rfl).1

/-- C8 counterexample: a transport failure and an unparseable reply whose
underlying errors render identically produce LITERALLY EQUAL exceptions
from `generate_consequence` — one generic kind with a shared message prefix
— so no caller can tell the two failure modes apart by error kind. -/
theorem generate_consequence_failures_indistinguishable :
    generate_consequence (ConsequenceTransport.fail "E")
      = generate_consequence (ConsequenceTransport.replyUnparseable "E")
    ∧ generate_consequence (ConsequenceTransport.fail "E")
      = Except.error ⟨"AI consequence generation failed: E"⟩ := by
  exact ⟨rfl, rfl⟩

/-- C8 (amended): `generate_consequence` signals BOTH failure modes —
transport/service failure and a reply that does not parse — with the single
generic exception kind `PyException`, message
"AI consequence generation failed: " followed by the underlying error's
rendering; the two modes are not distinguishable by error kind. On a parsed
reply it returns the record. -/
theorem generate_consequence_single_error_kind (co : ConsequenceTransport) :
    (∀ m, co = ConsequenceTransport.fail m →
      generate_consequence co
        = Except.error ⟨"AI consequence generation failed: " ++ m⟩)
    ∧ (∀ m, co = ConsequenceTransport.replyUnparseable m →
      generate_consequence co
        = Except.error ⟨"AI consequence generation failed: " ++ m⟩)
    ∧ (∀ c, co = ConsequenceTransport.reply c →
      generate_consequence co = Except.ok c) := by
  refine ⟨?_, ?_, ?_⟩ <;> rintro x rfl <;> rfl

/-- Witness for C8 (amended) at a concrete transport failure. -/
theorem generate_consequence_single_error_kind_witness :
    generate_consequence (ConsequenceTransport.fail "rate limited")
      = Except.error ⟨"AI consequence generation failed: rate limited"⟩ :=
  (generate_consequence_single_error_kind
    (ConsequenceTransport.fail "rate limited")).1 "rate limited" rfl

/-- C2: on an Active session, when the chosen id matches an option in the
option set `make_choice` computes internally and the consequence call fails
(the client raises — covering both its failure modes), `make_choice`
returns true and the new state has the fallback sentence containing the
matched option's description as its situation, an unchanged
timeline-alteration log, and a still-false completion flag; no exception
reaches the caller (the embedding is a total function). -/
theorem make_choice_client_failure (s : GameState) (choice_id : String)
    (tr : ChoiceTransport) (co : ConsequenceTransport) (opt : Choice)
    (hactive : s.is_complete = false)
    (hfind : (get_available_choices (some s) tr).find? (fun c => c.id == choice_id)
      = some opt)
    (hfail : ∃ m, generate_consequence co = Except.error m) :
    (make_choice_i (some s) choice_id tr co).ok = true
    ∧ ∃ s', (make_choice_i (some s) choice_id tr co).state = some s'
        ∧ s'.current_situation = fallback_situation opt
        ∧ (∃ pre post, s'.current_situation = pre ++ opt.description ++ post)
        ∧ s'.timeline_alterations = s.timeline_alterations
        ∧ s'.is_complete = false := by
  obtain ⟨m, hm⟩ := hfail
  rw [get_available_choices] at hfind
  refine ⟨by simp [make_choice_i, hfind, hm], ?_⟩
  refine ⟨{ s with
      choices_made := s.choices_made ++ [opt]
      current_situation := fallback_situation opt }, ?_, rfl, ?_, rfl, hactive⟩
  · simp [make_choice_i, hfind, hm]
  · exact ⟨"Your choice to '",
      "' has created ripple effects through history...", rfl⟩

/-- Witness for C2 at a concrete Active session, a reply offering one option,
and a failing consequence call. -/
theorem make_choice_client_failure_witness :
    (make_choice_i (some (GameState.init scenario_library_alexandria)) "save_scrolls"
        (ChoiceTransport.reply (TextDecode.objectChoices
          [⟨"save_scrolls", "Evacuate the scrolls by sea", "Preserves knowledge"⟩]))
        (ConsequenceTransport.fail "down")).ok = true
    ∧ ∃ s', (make_choice_i (some (GameState.init scenario_library_alexandria)) "save_scrolls"
        (ChoiceTransport.reply (TextDecode.objectChoices
          [⟨"save_scrolls", "Evacuate the scrolls by sea", "Preserves knowledge"⟩]))
        (ConsequenceTransport.fail "down")).state = some s'
      ∧ s'.current_situation
          = fallback_situation ⟨"save_scrolls", "Evacuate the scrolls by sea", "Preserves knowledge"⟩
      ∧ (∃ pre post, s'.current_situation
          = pre ++ (Choice.description ⟨"save_scrolls", "Evacuate the scrolls by sea", "Preserves knowledge"⟩) ++ post)
      ∧ s'.timeline_alterations
          = (GameState.init scenario_library_alexandria).timeline_alterations
      ∧ s'.is_complete = false :=
  make_choice_client_failure (GameState.init scenario_library_alexandria) "save_scrolls"
    (ChoiceTransport.reply (TextDecode.objectChoices
      [⟨"save_scrolls", "Evacuate the scrolls by sea", "Preserves knowledge"⟩]))
    (ConsequenceTransport.fail "down")
    ⟨"save_scrolls", "Evacuate the scrolls by sea", "Preserves knowledge"⟩
    rfl (by decide) ⟨⟨"AI consequence generation failed: down"⟩, rfl⟩

/-- C3: on an Active session, when the chosen id matches an option in the
internally computed option set and the consequence call succeeds with the
record `{new_situation: X, alterations: [A], is_ending: true}`,
`make_choice` returns true and the new state has situation `X`, the
timeline-alteration log with `A` appended at the end (prior entries and
their order preserved), and the completion flag set. -/
theorem make_choice_success_ending (s : GameState) (choice_id : String)
    (tr : ChoiceTransport) (co : ConsequenceTransport) (opt : Choice)
    (X A : String)
    (hactive : s.is_complete = false)
    (hfind : (get_available_choices (some s) tr).find? (fun c => c.id == choice_id)
      = some opt)
    (hok : generate_consequence co = Except.ok ⟨X, some [A], some true⟩) :
    (make_choice_i (some s) choice_id tr co).ok = true
    ∧ ∃ s', (make_choice_i (some s) choice_id tr co).state = some s'
        ∧ s'.current_situation = X
        ∧ s'.timeline_alterations = s.timeline_alterations ++ [A]
        ∧ s'.is_complete = true := by
  rw [get_available_choices] at hfind
  refine ⟨by simp [make_choice_i, hfind, hok], ?_⟩
  refine ⟨{ s with
      choices_made := s.choices_made ++ [opt]
      current_situation := X
      timeline_alterations := s.timeline_alterations ++ [A]
      is_complete := true }, ?_, rfl, rfl, rfl⟩
  simp [make_choice_i, hfind, hok, Option.getD]

/-- Witness for C3 at a concrete Active session, option set, and successful
ending consequence. -/
theorem make_choice_success_ending_witness :
    (make_choice_i (some (GameState.init scenario_black_death)) "quarantine"
        (ChoiceTransport.reply (TextDecode.objectChoices
          [⟨"quarantine", "Quarantine the ships", "Contains the plague"⟩]))
        (ConsequenceTransport.reply ⟨"X", some ["A"], some true⟩)).ok = true
    ∧ ∃ s', (make_choice_i (some (GameState.init scenario_black_death)) "quarantine"
        (ChoiceTransport.reply (TextDecode.objectChoices
          [⟨"quarantine", "Quarantine the ships", "Contains the plague"⟩]))
        (ConsequenceTransport.reply ⟨"X", some ["A"], some true⟩)).state = some s'
      ∧ s'.current_situation = "X"
      ∧ s'.timeline_alterations
          = (GameState.init scenario_black_death).timeline_alterations ++ ["A"]
      ∧ s'.is_complete = true :=
  make_choice_success_ending (GameState.init scenario_black_death) "quarantine"
    (ChoiceTransport.reply (TextDecode.objectChoices
      [⟨"quarantine", "Quarantine the ships", "Contains the plague"⟩]))
    (ConsequenceTransport.reply ⟨"X", some ["A"], some true⟩)
    ⟨"quarantine", "Quarantine the ships", "Contains the plague"⟩
    "X" "A" rfl (by decide) rfl

/-- C5: `make_choice` with no session returns false and changes nothing (and
issues no request); with a session, if the chosen id matches no option in
the option set it computes internally, it returns false and the session
state — situation, history, alteration log, completion flag — is exactly
as before (the state record is unchanged). -/
theorem make_choice_no_match (cs : Option GameState) (choice_id : String)
    (tr : ChoiceTransport) (co : ConsequenceTransport) :
    (cs = none → make_choice_i cs choice_id tr co = ⟨none, false, false, false⟩)
    ∧ (∀ s, cs = some s →
        (get_available_choices (some s) tr).find? (fun c => c.id == choice_id) = none →
        (make_choice_i cs choice_id tr co).state = some s
        ∧ (make_choice_i cs choice_id tr co).ok = false) := by
  constructor
  · rintro rfl
    rfl
  · rintro s rfl hnone
    rw [get_available_choices] at hnone
    constructor <;> simp [make_choice_i, hnone]

/-- Witness for C5: a concrete Active session whose computed option set (one
option with id "advance") has no entry matching "retreat". -/
theorem make_choice_no_match_witness :
    (make_choice_i (some (GameState.init scenario_d_day_weather)) "retreat"
        (ChoiceTransport.reply (TextDecode.objectChoices
          [⟨"advance", "Proceed with the invasion", "High risk"⟩]))
        (ConsequenceTransport.fail "down")).state
      = some (GameState.init scenario_d_day_weather)
    ∧ (make_choice_i (some (GameState.init scenario_d_day_weather)) "retreat"
        (ChoiceTransport.reply (TextDecode.objectChoices
          [⟨"advance", "Proceed with the invasion", "High risk"⟩]))
        (ConsequenceTransport.fail "down")).ok = false :=
  (make_choice_no_match (some (GameState.init scenario_d_day_weather)) "retreat"
    (ChoiceTransport.reply (TextDecode.objectChoices
      [⟨"advance", "Proceed with the invasion", "High risk"⟩]))
    (ConsequenceTransport.fail "down")).2
    (GameState.init scenario_d_day_weather) rfl (by decide)

/-- C6: the completion flag is monotone — `make_choice` never takes it from
true back to false, so within a session it transitions at most once, from
false to true — and once it is true, `get_available_choices` returns empty
WITHOUT issuing a choice-generation request, and `make_choice` returns
false with the state unchanged and NO request of either kind issued. -/
theorem complete_session_frozen (s : GameState) (choice_id : String)
    (tr : ChoiceTransport) (co : ConsequenceTransport) :
    (s.is_complete = true →
      get_available_choices_i (some s) tr = ⟨[], false⟩
      ∧ make_choice_i (some s) choice_id tr co = ⟨some s, false, false, false⟩)
    ∧ (∀ s', (make_choice_i (some s) choice_id tr co).state = some s' →
        s.is_complete = true → s'.is_complete = true) := by
  have hfrozen : s.is_complete = true →
      get_available_choices_i (some s) tr = ⟨[], false⟩
      ∧ make_choice_i (some s) choice_id tr co = ⟨some s, false, false, false⟩ := by
    intro hc
    have hgc : get_available_choices_i (some s) tr = ⟨[], false⟩ := by
      simp [get_available_choices_i, hc]
    refine ⟨hgc, ?_⟩
    simp [make_choice_i, hgc]
  refine ⟨hfrozen, ?_⟩
  intro s' hs' hc
  have hmk := (hfrozen hc).2
  rw [hmk] at hs'
  simp at hs'
  rw [← hs']
  exact hc

/-- Witness for C6 at a concrete completed session. -/
theorem complete_session_frozen_witness :
    get_available_choices_i
        (some { GameState.init scenario_columbus_pacific with is_complete := true })
        (ChoiceTransport.fail "down") = ⟨[], false⟩
    ∧ make_choice_i
        (some { GameState.init scenario_columbus_pacific with is_complete := true })
        "diplomatic" (ChoiceTransport.fail "down") (ConsequenceTransport.fail "down")
      = ⟨some { GameState.init scenario_columbus_pacific with is_complete := true },
          false, false, false⟩ :=
  (complete_session_frozen
    { GameState.init scenario_columbus_pacific with is_complete := true }
    "diplomatic" (ChoiceTransport.fail "down") (ConsequenceTransport.fail "down")).1 rfl

/-- C10: whenever `make_choice` on a session returns true — success path and
client-failure fallback path alike — the choice history grows by exactly
one entry, the matched option appended at the end; whenever it returns
false, the state (hence the history) is unchanged. -/
theorem make_choice_history_growth (s : GameState) (choice_id : String)
    (tr : ChoiceTransport) (co : ConsequenceTransport) :
    ((make_choice_i (some s) choice_id tr co).ok = true →
      ∃ opt s',
        (get_available_choices (some s) tr).find? (fun c => c.id == choice_id) = some opt
        ∧ (make_choice_i (some s) choice_id tr co).state = some s'
        ∧ s'.choices_made = s.choices_made ++ [opt])
    ∧ ((make_choice_i (some s) choice_id tr co).ok = false →
      (make_choice_i (some s) choice_id tr co).state = some s) := by
  rcases hfind : (get_available_choices_i (some s) tr).choices.find?
      (fun c => c.id == choice_id) with _ | opt
  · constructor
    · intro hok
      simp [make_choice_i, hfind] at hok
    · intro _
      simp [make_choice_i, hfind]
  · constructor
    · intro _
      rcases hco : generate_consequence co with m | c
      · exact ⟨opt, { s with
            choices_made := s.choices_made ++ [opt]
            current_situation := fallback_situation opt },
          by rw [get_available_choices]; exact hfind,
          by simp [make_choice_i, hfind, hco], rfl⟩
      · exact ⟨opt, { s with
            choices_made := s.choices_made ++ [opt]
            current_situation := c.new_situation
            timeline_alterations := s.timeline_alterations ++ c.alterations.getD []
            is_complete := if c.is_ending.getD false then true else s.is_complete },
          by rw [get_available_choices]; exact hfind,
          by simp [make_choice_i, hfind, hco], rfl⟩
    · intro hok
      rcases hco : generate_consequence co with m | c <;>
        simp [make_choice_i, hfind, hco] at hok

/-- Witness for C10: a concrete true-returning call (client-failure fallback
path) grows the history by exactly the matched option. -/
theorem make_choice_history_growth_witness :
    ∃ opt s',
      (get_available_choices (some (GameState.init scenario_archduke_survives))
          (ChoiceTransport.reply (TextDecode.objectChoices
            [⟨"restraint", "Urge diplomatic restraint", "May defuse the crisis"⟩]))).find?
          (fun c => c.id == "restraint") = some opt
      ∧ (make_choice_i (some (GameState.init scenario_archduke_survives)) "restraint"
          (ChoiceTransport.reply (TextDecode.objectChoices
            [⟨"restraint", "Urge diplomatic restraint", "May defuse the crisis"⟩]))
          (ConsequenceTransport.replyUnparseable "bad json")).state = some s'
      ∧ s'.choices_made
          = (GameState.init scenario_archduke_survives).choices_made ++ [opt] :=
  (make_choice_history_growth (GameState.init scenario_archduke_survives) "restraint"
    (ChoiceTransport.reply (TextDecode.objectChoices
      [⟨"restraint", "Urge diplomatic restraint", "May defuse the crisis"⟩]))
    (ConsequenceTransport.replyUnparseable "bad json")).1 (by decide)

end AlternateHistories
